import Mathlib

/-!
Shallow embedding of the `threebody` N-body simulation (src/threebody.py).

Scalars are modelled by real numbers, a pygame `Vector2` by `ℝ × ℝ`, a
pygame `Color` by a triple of naturals, and each per-body tuple of the
Python `State` class by a list.  In-place mutation of a list element is
modelled by `List.mapIdx` producing the post-loop list, and random draws
(`randint`) are passed in as explicit draw functions, constrained by the
`randint` bounds where a property depends on them.  The `ValueError`
raised by `max(())` on an empty sequence is modelled by `Option`.
-/

namespace ThreeBody

noncomputable section

/-- The screen size constant `SCREEN_SIZE = (1280, 720)`. -/
def SCREEN_SIZE : ℤ × ℤ := (1280, 720)

/-- The constant `GRAVITATIONAL_COEFFICIENT = 900`. -/
def GRAVITATIONAL_COEFFICIENT : ℝ := 900

/-- The constant `DEFAULT_NUMBER_OF_STARS = 3`. -/
def DEFAULT_NUMBER_OF_STARS : ℤ := 3

/-- The constant `MIN_VISIBLE_SIZE = 3`. -/
def MIN_VISIBLE_SIZE : ℝ := 3

/-- A pygame `Color`: an RGB triple. -/
structure Color where
  r : ℕ
  g : ℕ
  b : ℕ

/-- A pygame `Vector2`. -/
abbrev Vec : Type := ℝ × ℝ

/-- Pygame `Vector2.length()`: `sqrt(x*x + y*y)`. -/
def vlength (v : Vec) : ℝ := Real.sqrt (v.1 * v.1 + v.2 * v.2)

/-- Pygame `Vector2.distance_squared_to`: squared Euclidean distance. -/
def distance_squared_to (a b : Vec) : ℝ := (a.1 - b.1) ^ 2 + (a.2 - b.2) ^ 2

/-- Pygame `Vector2.normalize_ip()`: divide both components by the length. -/
def vnormalize (v : Vec) : Vec := (v.1 / vlength v, v.2 / vlength v)

/-- Pygame `Vector2.scale_to_length(L)`: multiply componentwise by `L / length`. -/
def scale_to_length (v : Vec) (L : ℝ) : Vec :=
  (v.1 * (L / vlength v), v.2 * (L / vlength v))

/-- Function `random_mass`: the drawn integer (from `randint(1000, 4000)`) times `4 / number_of_stars`. -/
def random_mass (number_of_stars : ℤ) (draw : ℤ) : ℝ :=
  (draw : ℝ) * 4 / (number_of_stars : ℝ)

/-- Function `size_from_mass`: `max(mass / 50, MIN_VISIBLE_SIZE)`. -/
def size_from_mass (mass : ℝ) : ℝ := max (mass / 50) MIN_VISIBLE_SIZE

/-- The margin `x_margin = ceil(SCREEN_SIZE[0] / 10)` from `random_position`. -/
def x_margin : ℤ := ⌈(SCREEN_SIZE.1 : ℚ) / 10⌉

/-- The margin `y_margin = ceil(SCREEN_SIZE[1] / 10)` from `random_position`. -/
def y_margin : ℤ := ⌈(SCREEN_SIZE.2 : ℚ) / 10⌉

/-- Function `random_position`: the vector built from the two `randint` draws. -/
def random_position (draw : ℤ × ℤ) : Vec := ((draw.1 : ℝ), (draw.2 : ℝ))

/-- The `State` class: per-body tuples become lists, indexed consistently. -/
@[ext]
structure State where
  number_of_stars : ℤ
  masses : List ℝ
  sizes : List ℝ
  positions : List Vec
  velocities : List Vec
  colors : List Color
  gravitation_factor : List (List ℝ)
  accelerations : List Vec
  min_distance_squared : ℝ

/-- The number of loop iterations `range(self.number_of_stars)` performs. -/
def State.n (s : State) : ℕ := s.number_of_stars.toNat

/-- Method `_update_gravitation_factor`: for `i` in `range(n)`, for `j` in
`range(i+1, n)`, overwrite entry `(i, j)` with
`G / max(distance_squared, min_distance_squared)`; every other entry keeps
its value. -/
def State.update_gravitation_factor (s : State) : State :=
  { s with gravitation_factor :=
      s.gravitation_factor.mapIdx fun i row =>
        row.mapIdx fun j x =>
          if i < s.n ∧ i < j ∧ j < s.n then
            GRAVITATIONAL_COEFFICIENT /
              max (distance_squared_to (s.positions.getD i (0, 0)) (s.positions.getD j (0, 0)))
                s.min_distance_squared
          else x }

/-- The coefficient the acceleration loop reads for the ordered pair `(i, j)`:
`self.gravitation_factor[min(i, j)][max(i, j)]`. -/
def State.pair_coeff (s : State) (i j : ℕ) : ℝ :=
  (s.gravitation_factor.getD (min i j) []).getD (max i j) 0

/-- One inner-loop iteration of `_update_acceleration`: the contribution of
body `j` to the acceleration of body `i` (zero when `i == j` or the raw
distance is `<= 1`). -/
def State.accel_contrib (s : State) (i j : ℕ) : Vec :=
  if i = j then (0, 0)
  else
    let vector := ((s.positions.getD j (0, 0)).1 - (s.positions.getD i (0, 0)).1,
                   (s.positions.getD j (0, 0)).2 - (s.positions.getD i (0, 0)).2)
    let distance := vlength vector
    if distance ≤ 1 then (0, 0)
    else scale_to_length (vnormalize vector) (s.masses.getD j 0 * s.pair_coeff i j)

/-- The value `_update_acceleration` leaves in `accelerations[i]`: reset to
`(0, 0)`, then accumulate the contributions of all `j` in `range(n)`. -/
def State.accel_of (s : State) (i : ℕ) : Vec :=
  ∑ j ∈ Finset.range s.n, s.accel_contrib i j

/-- Method `_update_acceleration`: for `i` in `range(n)`, reset `accelerations[i]`
and accumulate the pair contributions. -/
def State.update_acceleration (s : State) : State :=
  { s with accelerations :=
      s.accelerations.mapIdx fun i a => if i < s.n then s.accel_of i else a }

/-- Method `_update_velocities`: `velocities[i] += accelerations[i] * dt` componentwise. -/
def State.update_velocities (s : State) (dt_in_s : ℝ) : State :=
  { s with velocities :=
      s.velocities.mapIdx fun i v =>
        if i < s.n then
          (v.1 + (s.accelerations.getD i (0, 0)).1 * dt_in_s,
           v.2 + (s.accelerations.getD i (0, 0)).2 * dt_in_s)
        else v }

/-- Method `_update_positions`: `positions[i] += velocities[i] * dt` componentwise. -/
def State.update_positions (s : State) (dt_in_s : ℝ) : State :=
  { s with positions :=
      s.positions.mapIdx fun i p =>
        if i < s.n then
          (p.1 + (s.velocities.getD i (0, 0)).1 * dt_in_s,
           p.2 + (s.velocities.getD i (0, 0)).2 * dt_in_s)
        else p }

/-- Method `State.update`: velocities, then positions, then gravitation factor,
then accelerations. -/
def State.update (s : State) (dt_in_s : ℝ) : State :=
  (((s.update_velocities dt_in_s).update_positions dt_in_s).update_gravitation_factor).update_acceleration

/-- The `masses` tuple built by `State.__init__`: one `random_mass` draw per
star, sorted in descending order (`sorted(..., reverse=True)`). -/
def init_masses (number_of_stars : ℤ) (mass_draw : ℕ → ℤ) : List ℝ :=
  List.insertionSort (· ≥ ·)
    ((List.range number_of_stars.toNat).map fun k => random_mass number_of_stars (mass_draw k))

/-- The state `State.__init__` has built right before calling
`_update_gravitation_factor`, given the value `mx` of `max(self.sizes)`. -/
def init_raw (number_of_stars : ℤ) (mass_draw : ℕ → ℤ) (pos_draw : ℕ → ℤ × ℤ)
    (color_draw : ℕ → Color) (mx : ℝ) : State :=
  { number_of_stars := number_of_stars
    masses := init_masses number_of_stars mass_draw
    sizes := (init_masses number_of_stars mass_draw).map size_from_mass
    positions := (List.range number_of_stars.toNat).map fun k => random_position (pos_draw k)
    velocities := (List.range number_of_stars.toNat).map fun _ => ((0 : ℝ), (0 : ℝ))
    colors := (List.range number_of_stars.toNat).map color_draw
    gravitation_factor :=
      (List.range number_of_stars.toNat).map fun _ =>
        (List.range number_of_stars.toNat).map fun _ => (0 : ℝ)
    accelerations := (List.range number_of_stars.toNat).map fun _ => ((0 : ℝ), (0 : ℝ))
    min_distance_squared := (max 10 mx) ^ 2 }

/-- Constructor `State.__init__`: build all per-body sequences from the random draws,
sort the masses in descending order, derive the sizes and
`min_distance_squared`, then refresh the gravitation factors and the
accelerations.  `max(self.sizes)` raises `ValueError` on an empty sequence,
modelled by `none`. -/
def State.init (number_of_stars : ℤ) (mass_draw : ℕ → ℤ) (pos_draw : ℕ → ℤ × ℤ)
    (color_draw : ℕ → Color) : Option State :=
  match ((init_masses number_of_stars mass_draw).map size_from_mass).max? with
  | none => none
  | some mx =>
      some (init_raw number_of_stars mass_draw pos_draw color_draw
        mx).update_gravitation_factor.update_acceleration

/-- The keyboard keys the event loop of `run_simulation` inspects. -/
inductive Key
  | k_r
  | k_p
  | k_q
  | k_a
  | k_z
  | k_other

/-- The pygame events the loop of `run_simulation` inspects. -/
inductive Event
  | quit
  | keydown (key : Key)
  | other

/-- The mutable variables of the `run_simulation` loop (the state object,
the `running` and `paused` flags, and the zoom `scale_factor`). -/
structure LoopState where
  running : Bool
  paused : Bool
  scale_factor : ℝ
  sim : State

/-- The body of the event-polling `for` loop in `run_simulation`: quit
events clear `running`; `R` rebuilds the state from fresh draws with the
same star count and clears `paused`; `P` toggles `paused`; `Q` clears
`running`; `A` multiplies the scale by `0.9`; `Z` divides it by `0.9`. -/
def handle_event (number_of_stars : ℤ) (mass_draw : ℕ → ℤ) (pos_draw : ℕ → ℤ × ℤ)
    (color_draw : ℕ → Color) (l : LoopState) (e : Event) : LoopState :=
  match e with
  | .quit => { l with running := false }
  | .keydown key =>
      match key with
      | .k_r =>
          { l with
            sim := (State.init number_of_stars mass_draw pos_draw color_draw).getD l.sim
            paused := false }
      | .k_p => { l with paused := !l.paused }
      | .k_q => { l with running := false }
      | .k_a => { l with scale_factor := l.scale_factor * 0.9 }
      | .k_z => { l with scale_factor := l.scale_factor / 0.9 }
      | .k_other => l
  | .other => l

/-- The whole event-polling loop over `pygame.event.get()`. -/
def poll_events (number_of_stars : ℤ) (mass_draw : ℕ → ℤ) (pos_draw : ℕ → ℤ × ℤ)
    (color_draw : ℕ → Color) (l : LoopState) (events : List Event) : LoopState :=
  events.foldl (handle_event number_of_stars mass_draw pos_draw color_draw) l

/-- One iteration of the `while running` loop: poll every pending event,
then, unless paused, run the engine update and draw (the returned flag
records whether the update/draw block ran; drawing itself is out of
scope). -/
def loop_iteration (number_of_stars : ℤ) (mass_draw : ℕ → ℤ) (pos_draw : ℕ → ℤ × ℤ)
    (color_draw : ℕ → Color) (l : LoopState) (events : List Event) (dt_in_s : ℝ) :
    LoopState × Bool :=
  let l' := poll_events number_of_stars mass_draw pos_draw color_draw l events
  if l'.paused then (l', false)
  else ({ l' with sim := l'.sim.update dt_in_s }, true)

/-- Well-formedness: every per-body sequence has `number_of_stars` entries
and the factor matrix is square of the same dimension (established by
`State.init` and preserved by `State.update`). -/
def State.WF (s : State) : Prop :=
  s.masses.length = s.n ∧ s.sizes.length = s.n ∧ s.positions.length = s.n ∧
    s.velocities.length = s.n ∧ s.colors.length = s.n ∧ s.accelerations.length = s.n ∧
    s.gravitation_factor.length = s.n ∧ ∀ row ∈ s.gravitation_factor, row.length = s.n

/-- Gravitation-factor consistency: every stored upper-triangular entry
matches the clamped inverse-square formula at the current positions. -/
def State.GFConsistent (s : State) : Prop :=
  ∀ i j, i < j → j < s.n →
    (s.gravitation_factor.getD i []).getD j 0 =
      GRAVITATIONAL_COEFFICIENT /
        max (distance_squared_to (s.positions.getD i (0, 0)) (s.positions.getD j (0, 0)))
          s.min_distance_squared

/-- Acceleration consistency: every stored acceleration matches the pair
accumulation at the current positions and factors. -/
def State.AccConsistent (s : State) : Prop :=
  ∀ i, i < s.n → s.accelerations.getD i (0, 0) = s.accel_of i

/-- The order the specification lists the four tick phases in: factor
refresh, acceleration accumulation, velocity integration, position
integration. -/
def State.spec_order_update (s : State) (dt_in_s : ℝ) : State :=
  ((s.update_gravitation_factor.update_acceleration).update_velocities
    dt_in_s).update_positions dt_in_s

/-- The two-body scenario of the end-to-end test: masses 1000 and 1000 at
`(0, 0)` and `(100, 0)`, at rest, with the derived sizes `20` and floor
distance `max(10, 20)^2 = 400`. -/
def two_body_state : State :=
  { number_of_stars := 2
    masses := [1000, 1000]
    sizes := [20, 20]
    positions := [((0 : ℝ), (0 : ℝ)), ((100 : ℝ), (0 : ℝ))]
    velocities := [((0 : ℝ), (0 : ℝ)), ((0 : ℝ), (0 : ℝ))]
    colors := [⟨255, 0, 0⟩, ⟨0, 0, 255⟩]
    gravitation_factor := [[0, 0], [0, 0]]
    accelerations := [((0 : ℝ), (0 : ℝ)), ((0 : ℝ), (0 : ℝ))]
    min_distance_squared := 400 }

/-- A two-body state whose bodies coincide, to witness the degenerate skip. -/
def coincident_state : State :=
  { number_of_stars := 2
    masses := [1000, 1000]
    sizes := [20, 20]
    positions := [((0 : ℝ), (0 : ℝ)), ((0 : ℝ), (0 : ℝ))]
    velocities := [((0 : ℝ), (0 : ℝ)), ((0 : ℝ), (0 : ℝ))]
    colors := [⟨255, 0, 0⟩, ⟨0, 0, 255⟩]
    gravitation_factor := [[0, 0], [0, 0]]
    accelerations := [((0 : ℝ), (0 : ℝ)), ((0 : ℝ), (0 : ℝ))]
    min_distance_squared := 400 }

/-- Fixed mass draw used by the concrete witnesses. -/
def witness_mass_draw : ℕ → ℤ := fun _ => 1000

/-- Fixed position draw used by the concrete witnesses. -/
def witness_pos_draw : ℕ → ℤ × ℤ := fun _ => (200, 100)

/-- Fixed color draw used by the concrete witnesses. -/
def witness_color_draw : ℕ → Color := fun _ => ⟨0, 0, 0⟩

/-- The state a one-star construction with the witness draws produces. -/
def witness_fresh_state : State :=
  (init_raw 1 witness_mass_draw witness_pos_draw witness_color_draw
    (size_from_mass (random_mass 1 1000))).update_gravitation_factor.update_acceleration

/-- A concrete loop state used by the interaction-loop witness. -/
def witness_loop_state : LoopState :=
  { running := true
    paused := false
    scale_factor := 1
    sim := two_body_state }

end

/-- Reading a `mapIdx` result inside the original length applies the function
to the original entry. -/
theorem getD_mapIdx {α : Type} (l : List α) (f : ℕ → α → α) (i : ℕ) (d : α)
    (h : i < l.length) : (l.mapIdx f).getD i d = f i (l.getD i d) := by
  rw [List.getD_eq_getElem _ _ (by simp only [List.length_mapIdx]; exact h),
    List.getD_eq_getElem _ _ h]
  exact List.get_mapIdx l f i h

/-- Reading a `mapIdx` result outside the original length gives the default. -/
theorem getD_mapIdx_default {α : Type} (l : List α) (f : ℕ → α → α) (i : ℕ) (d : α)
    (h : l.length ≤ i) : (l.mapIdx f).getD i d = d :=
  List.getD_eq_default _ _ (by simp [h])

/-- A `mapIdx` that fixes every entry returns the original list. -/
theorem mapIdx_id_of_fix {α : Type} (l : List α) (f : ℕ → α → α)
    (h : ∀ i (h' : i < l.length), f i (l.get ⟨i, h'⟩) = l.get ⟨i, h'⟩) :
    l.mapIdx f = l := by
  apply List.ext_get (by simp)
  intro i h1 h2
  rw [List.get_mapIdx l f i h2]
  exact h i h2

@[simp]
theorem update_gravitation_factor_number_of_stars (s : State) :
    s.update_gravitation_factor.number_of_stars = s.number_of_stars := rfl

@[simp]
theorem update_gravitation_factor_positions (s : State) :
    s.update_gravitation_factor.positions = s.positions := rfl

@[simp]
theorem update_gravitation_factor_velocities (s : State) :
    s.update_gravitation_factor.velocities = s.velocities := rfl

@[simp]
theorem update_gravitation_factor_accelerations (s : State) :
    s.update_gravitation_factor.accelerations = s.accelerations := rfl

@[simp]
theorem update_gravitation_factor_masses (s : State) :
    s.update_gravitation_factor.masses = s.masses := rfl

@[simp]
theorem update_gravitation_factor_min_distance_squared (s : State) :
    s.update_gravitation_factor.min_distance_squared = s.min_distance_squared := rfl

@[simp]
theorem update_acceleration_number_of_stars (s : State) :
    s.update_acceleration.number_of_stars = s.number_of_stars := rfl

@[simp]
theorem update_acceleration_positions (s : State) :
    s.update_acceleration.positions = s.positions := rfl

@[simp]
theorem update_acceleration_velocities (s : State) :
    s.update_acceleration.velocities = s.velocities := rfl

@[simp]
theorem update_acceleration_gravitation_factor (s : State) :
    s.update_acceleration.gravitation_factor = s.gravitation_factor := rfl

@[simp]
theorem update_acceleration_min_distance_squared (s : State) :
    s.update_acceleration.min_distance_squared = s.min_distance_squared := rfl

@[simp]
theorem update_velocities_number_of_stars (s : State) (dt : ℝ) :
    (s.update_velocities dt).number_of_stars = s.number_of_stars := rfl

@[simp]
theorem update_velocities_positions (s : State) (dt : ℝ) :
    (s.update_velocities dt).positions = s.positions := rfl

@[simp]
theorem update_velocities_gravitation_factor (s : State) (dt : ℝ) :
    (s.update_velocities dt).gravitation_factor = s.gravitation_factor := rfl

@[simp]
theorem update_velocities_accelerations (s : State) (dt : ℝ) :
    (s.update_velocities dt).accelerations = s.accelerations := rfl

@[simp]
theorem update_positions_number_of_stars (s : State) (dt : ℝ) :
    (s.update_positions dt).number_of_stars = s.number_of_stars := rfl

@[simp]
theorem update_positions_velocities (s : State) (dt : ℝ) :
    (s.update_positions dt).velocities = s.velocities := rfl

@[simp]
theorem update_positions_gravitation_factor (s : State) (dt : ℝ) :
    (s.update_positions dt).gravitation_factor = s.gravitation_factor := rfl

@[simp]
theorem update_positions_accelerations (s : State) (dt : ℝ) :
    (s.update_positions dt).accelerations = s.accelerations := rfl

@[simp]
theorem update_gravitation_factor_gravitation_factor (s : State) :
    s.update_gravitation_factor.gravitation_factor =
      s.gravitation_factor.mapIdx fun i row =>
        row.mapIdx fun j x =>
          if i < s.n ∧ i < j ∧ j < s.n then
            GRAVITATIONAL_COEFFICIENT /
              max (distance_squared_to (s.positions.getD i (0, 0)) (s.positions.getD j (0, 0)))
                s.min_distance_squared
          else x := rfl

@[simp]
theorem update_acceleration_accelerations (s : State) :
    s.update_acceleration.accelerations =
      s.accelerations.mapIdx fun i a => if i < s.n then s.accel_of i else a := rfl

@[simp]
theorem update_velocities_velocities (s : State) (dt : ℝ) :
    (s.update_velocities dt).velocities =
      s.velocities.mapIdx fun i v =>
        if i < s.n then
          (v.1 + (s.accelerations.getD i (0, 0)).1 * dt,
           v.2 + (s.accelerations.getD i (0, 0)).2 * dt)
        else v := rfl

@[simp]
theorem update_positions_positions (s : State) (dt : ℝ) :
    (s.update_positions dt).positions =
      s.positions.mapIdx fun i p =>
        if i < s.n then
          (p.1 + (s.velocities.getD i (0, 0)).1 * dt,
           p.2 + (s.velocities.getD i (0, 0)).2 * dt)
        else p := rfl

/-- Every member of a `mapIdx` image is the image of an entry of the base list. -/
theorem mem_mapIdx_elim {α β : Type} {l : List α} {f : ℕ → α → β} {b : β}
    (hb : b ∈ l.mapIdx f) : ∃ (i : ℕ) (h : i < l.length), b = f i (l.get ⟨i, h⟩) := by
  rw [List.mem_iff_get] at hb
  obtain ⟨⟨i, hi⟩, hget⟩ := hb
  have hi' : i < l.length := by simpa using hi
  exact ⟨i, hi', by rw [← hget, List.get_mapIdx _ _ i hi']⟩

@[simp]
theorem n_update_gravitation_factor (s : State) :
    s.update_gravitation_factor.n = s.n := rfl

@[simp]
theorem n_update_acceleration (s : State) : s.update_acceleration.n = s.n := rfl

@[simp]
theorem n_update_velocities (s : State) (dt : ℝ) : (s.update_velocities dt).n = s.n := rfl

@[simp]
theorem n_update_positions (s : State) (dt : ℝ) : (s.update_positions dt).n = s.n := rfl

/-- Function `accel_of` only reads the star count, positions, masses and factors, so
refreshing the accelerations does not change it. -/
theorem accel_of_update_acceleration (s : State) (i : ℕ) :
    s.update_acceleration.accel_of i = s.accel_of i := rfl

/-- The two refresh passes establish the gravitation-factor consistency
invariant on any well-formed state. -/
theorem gf_consistent_of_refresh (s : State) (hwf : s.WF) :
    s.update_gravitation_factor.update_acceleration.GFConsistent := by
  intro i j hij hj
  have hj' : j < s.n := hj
  have hi : i < s.n := lt_trans hij hj'
  have hgfl : s.gravitation_factor.length = s.n := hwf.2.2.2.2.2.2.1
  have hrow : s.gravitation_factor.getD i [] ∈ s.gravitation_factor := by
    rw [List.getD_eq_getElem _ _ (by rw [hgfl]; exact hi)]
    exact List.getElem_mem _
  have hrowl : (s.gravitation_factor.getD i []).length = s.n :=
    hwf.2.2.2.2.2.2.2 _ hrow
  show ((s.update_gravitation_factor.gravitation_factor).getD i []).getD j 0 = _
  rw [show s.update_gravitation_factor.gravitation_factor =
      s.gravitation_factor.mapIdx fun i row =>
        row.mapIdx fun j x =>
          if i < s.n ∧ i < j ∧ j < s.n then
            GRAVITATIONAL_COEFFICIENT /
              max (distance_squared_to (s.positions.getD i (0, 0)) (s.positions.getD j (0, 0)))
                s.min_distance_squared
          else x from rfl]
  rw [getD_mapIdx _ _ _ _ (by rw [hgfl]; exact hi)]
  rw [getD_mapIdx _ _ _ _ (by rw [hrowl]; exact hj')]
  simp [hi, hij, hj']

/-- The two refresh passes establish the acceleration consistency invariant
on any well-formed state. -/
theorem acc_consistent_of_refresh (s : State) (hwf : s.WF) :
    s.update_gravitation_factor.update_acceleration.AccConsistent := by
  intro i hi
  have hi' : i < s.n := hi
  have haccl : s.update_gravitation_factor.accelerations.length = s.n :=
    hwf.2.2.2.2.2.1
  show (s.update_gravitation_factor.accelerations.mapIdx fun i a =>
      if i < s.update_gravitation_factor.n then s.update_gravitation_factor.accel_of i
      else a).getD i (0, 0) = _
  rw [getD_mapIdx _ _ _ _ (by rw [haccl]; exact hi')]
  simp only [n_update_gravitation_factor]
  rw [if_pos hi']
  exact (accel_of_update_acceleration _ i).symm

/-- The factor refresh preserves well-formedness. -/
theorem wf_update_gravitation_factor (s : State) (hwf : s.WF) :
    s.update_gravitation_factor.WF := by
  obtain ⟨h1, h2, h3, h4, h5, h6, h7, h8⟩ := hwf
  refine ⟨h1, h2, h3, h4, h5, h6, ?_, ?_⟩
  · rw [update_gravitation_factor_gravitation_factor]
    simp only [n_update_gravitation_factor, List.length_mapIdx]
    exact h7
  · intro row hrow
    rw [update_gravitation_factor_gravitation_factor] at hrow
    obtain ⟨i, hi, rfl⟩ := mem_mapIdx_elim hrow
    simp only [n_update_gravitation_factor, List.length_mapIdx]
    exact h8 _ (List.get_mem _ _ _)

/-- The acceleration refresh preserves well-formedness. -/
theorem wf_update_acceleration (s : State) (hwf : s.WF) :
    s.update_acceleration.WF := by
  obtain ⟨h1, h2, h3, h4, h5, h6, h7, h8⟩ := hwf
  refine ⟨h1, h2, h3, h4, h5, ?_, h7, h8⟩
  rw [update_acceleration_accelerations]
  simp only [n_update_acceleration, List.length_mapIdx]
  exact h6

/-- The velocity integration preserves well-formedness. -/
theorem wf_update_velocities (s : State) (dt : ℝ) (hwf : s.WF) :
    (s.update_velocities dt).WF := by
  obtain ⟨h1, h2, h3, h4, h5, h6, h7, h8⟩ := hwf
  refine ⟨h1, h2, h3, ?_, h5, h6, h7, h8⟩
  rw [update_velocities_velocities]
  simp only [n_update_velocities, List.length_mapIdx]
  exact h4

/-- The position integration preserves well-formedness. -/
theorem wf_update_positions (s : State) (dt : ℝ) (hwf : s.WF) :
    (s.update_positions dt).WF := by
  obtain ⟨h1, h2, h3, h4, h5, h6, h7, h8⟩ := hwf
  refine ⟨h1, h2, ?_, h4, h5, h6, h7, h8⟩
  rw [update_positions_positions]
  simp only [n_update_positions, List.length_mapIdx]
  exact h3

/-- A whole tick preserves well-formedness. -/
theorem wf_update (s : State) (dt : ℝ) (hwf : s.WF) : (s.update dt).WF :=
  wf_update_acceleration _ (wf_update_gravitation_factor _
    (wf_update_positions _ dt (wf_update_velocities _ dt hwf)))

/-- The generated mass list always has one entry per star. -/
theorem length_init_masses (n : ℤ) (md : ℕ → ℤ) :
    (init_masses n md).length = n.toNat := by
  simp [init_masses, List.length_insertionSort]

/-- For a non-positive star count the constructor reaches `max(())` and
fails. -/
theorem init_eq_none (n : ℤ) (md : ℕ → ℤ) (pd : ℕ → ℤ × ℤ) (cd : ℕ → Color)
    (hn : n ≤ 0) : State.init n md pd cd = none := by
  have h0 : n.toNat = 0 := Int.toNat_of_nonpos hn
  have hnil : (init_masses n md).map size_from_mass = [] := by
    rw [← List.length_eq_zero]
    simp [length_init_masses, h0]
  simp only [State.init, hnil, List.max?_nil]

/-- For a positive star count the constructor succeeds and returns the
double refresh of the raw generated state. -/
theorem init_eq_some (n : ℤ) (md : ℕ → ℤ) (pd : ℕ → ℤ × ℤ) (cd : ℕ → Color)
    (hn : 1 ≤ n) :
    ∃ mx, ((init_masses n md).map size_from_mass).max? = some mx ∧
      State.init n md pd cd =
        some (init_raw n md pd cd mx).update_gravitation_factor.update_acceleration := by
  have hlen : ((init_masses n md).map size_from_mass).length = n.toNat := by
    simp [length_init_masses]
  have hne : (init_masses n md).map size_from_mass ≠ [] := by
    intro h
    rw [h] at hlen
    simp only [List.length_nil] at hlen
    omega
  have hmax : ((init_masses n md).map size_from_mass).max? ≠ none := by
    intro h
    exact hne (List.max?_eq_none_iff.mp h)
  obtain ⟨mx, hmx⟩ := Option.ne_none_iff_exists'.mp hmax
  exact ⟨mx, hmx, by simp only [State.init, hmx]⟩

/-- The raw generated state is well-formed. -/
theorem wf_init_raw (n : ℤ) (md : ℕ → ℤ) (pd : ℕ → ℤ × ℤ) (cd : ℕ → Color) (mx : ℝ) :
    (init_raw n md pd cd mx).WF := by
  refine ⟨?_, ?_, ?_, ?_, ?_, ?_, ?_, ?_⟩
  · simp [init_raw, State.n, length_init_masses]
  · simp [init_raw, State.n, length_init_masses]
  · simp [init_raw, State.n]
  · simp [init_raw, State.n]
  · simp [init_raw, State.n]
  · simp [init_raw, State.n]
  · simp [init_raw, State.n]
  · intro row hrow
    simp only [init_raw] at hrow
    obtain ⟨k, _, rfl⟩ := List.mem_map.mp hrow
    simp [State.n, init_raw]

/-- Any successfully constructed state is well-formed. -/
theorem wf_init (n : ℤ) (md : ℕ → ℤ) (pd : ℕ → ℤ × ℤ) (cd : ℕ → Color) (s : State)
    (h : State.init n md pd cd = some s) : s.WF := by
  rcases le_or_lt 1 n with hn | hn
  · obtain ⟨mx, _, heq⟩ := init_eq_some n md pd cd hn
    rw [heq] at h
    cases h
    exact wf_update_acceleration _ (wf_update_gravitation_factor _ (wf_init_raw n md pd cd mx))
  · rw [init_eq_none n md pd cd (by omega)] at h
    cases h

/-- A zero timestep leaves the velocities untouched. -/
theorem update_velocities_zero (s : State) : s.update_velocities 0 = s := by
  refine State.ext rfl rfl rfl rfl ?_ rfl rfl rfl rfl
  rw [update_velocities_velocities]
  apply mapIdx_id_of_fix
  intro i h'
  by_cases h : i < s.n <;> simp [h]

/-- A zero timestep leaves the positions untouched. -/
theorem update_positions_zero (s : State) : s.update_positions 0 = s := by
  refine State.ext rfl rfl rfl ?_ rfl rfl rfl rfl rfl
  rw [update_positions_positions]
  apply mapIdx_id_of_fix
  intro i h'
  by_cases h : i < s.n <;> simp [h]

/-- The two-body test state is well-formed. -/
theorem two_body_state_wf : two_body_state.WF := by
  refine ⟨rfl, rfl, rfl, rfl, rfl, rfl, rfl, ?_⟩
  intro row hrow
  simp only [two_body_state, List.mem_cons, List.not_mem_nil, or_false] at hrow
  rcases hrow with rfl | rfl <;> rfl

/-- C1: after `update(state, dt)` on a well-formed state, and likewise after
construction, the derived fields match the current positions: every stored
pair factor with `i < j` equals `G / max(distanceSquared, minDistanceSquared)`
at the post-update positions, and every acceleration equals the skip-guarded
pair accumulation at the post-update positions and factors. -/
theorem c1_derived_fields_consistent (s : State) (dt : ℝ) (hwf : s.WF) :
    ((s.update dt).GFConsistent ∧ (s.update dt).AccConsistent) ∧
      ∀ (n : ℤ) (md : ℕ → ℤ) (pd : ℕ → ℤ × ℤ) (cd : ℕ → Color) (s0 : State),
        State.init n md pd cd = some s0 → s0.GFConsistent ∧ s0.AccConsistent := by
  have hwf' : ((s.update_velocities dt).update_positions dt).WF :=
    wf_update_positions _ dt (wf_update_velocities _ dt hwf)
  refine ⟨⟨gf_consistent_of_refresh _ hwf', acc_consistent_of_refresh _ hwf'⟩, ?_⟩
  intro n md pd cd s0 h
  rcases le_or_lt 1 n with hn | hn
  · obtain ⟨mx, _, heq⟩ := init_eq_some n md pd cd hn
    rw [heq] at h
    cases h
    exact ⟨gf_consistent_of_refresh _ (wf_init_raw n md pd cd mx),
      acc_consistent_of_refresh _ (wf_init_raw n md pd cd mx)⟩
  · rw [init_eq_none n md pd cd (by omega)] at h
    cases h

/-- Witness for C1 at the concrete two-body state with `dt = 1`. -/
theorem c1_derived_fields_consistent_witness :
    two_body_state.WF ∧
      (((two_body_state.update 1).GFConsistent ∧ (two_body_state.update 1).AccConsistent) ∧
        ∀ (n : ℤ) (md : ℕ → ℤ) (pd : ℕ → ℤ × ℤ) (cd : ℕ → Color) (s0 : State),
          State.init n md pd cd = some s0 → s0.GFConsistent ∧ s0.AccConsistent) :=
  ⟨two_body_state_wf, c1_derived_fields_consistent two_body_state 1 two_body_state_wf⟩

/-- C3: a zero timestep leaves positions and velocities unchanged, while the
gravitation factors and accelerations are still recomputed (the whole update
collapses to the two refresh passes over the unchanged positions). -/
theorem c3_zero_dt_noop_on_kinematics (s : State) :
    (s.update 0).positions = s.positions ∧ (s.update 0).velocities = s.velocities ∧
      s.update 0 = s.update_gravitation_factor.update_acceleration := by
  have h : s.update 0 = s.update_gravitation_factor.update_acceleration := by
    show (((s.update_velocities 0).update_positions 0).update_gravitation_factor).update_acceleration =
      s.update_gravitation_factor.update_acceleration
    rw [update_velocities_zero, update_positions_zero]
  exact ⟨by rw [h]; rfl, by rw [h]; rfl, h⟩

/-- C8: a tick only rewrites the kinematic fields; the star count, masses,
sizes, colors and distance floor are untouched. -/
theorem c8_update_frame (s : State) (dt : ℝ) :
    (s.update dt).number_of_stars = s.number_of_stars ∧
      (s.update dt).masses = s.masses ∧
      (s.update dt).sizes = s.sizes ∧
      (s.update dt).colors = s.colors ∧
      (s.update dt).min_distance_squared = s.min_distance_squared :=
  ⟨rfl, rfl, rfl, rfl, rfl⟩

/-- C10: construction succeeds exactly for positive star counts; for
`n <= 0` the empty `sizes` sequence makes `max(())` raise, with no explicit
validation beforehand. -/
theorem c10_init_total_iff_positive (n : ℤ) (md : ℕ → ℤ) (pd : ℕ → ℤ × ℤ)
    (cd : ℕ → Color) :
    (1 ≤ n → ∃ s, State.init n md pd cd = some s) ∧
      (n ≤ 0 → State.init n md pd cd = none) := by
  constructor
  · intro hn
    obtain ⟨mx, _, heq⟩ := init_eq_some n md pd cd hn
    exact ⟨_, heq⟩
  · intro hn
    exact init_eq_none n md pd cd hn

/-- Witness for C10 at the concrete counts `1` and `-1`. -/
theorem c10_init_total_iff_positive_witness :
    (∃ s, State.init 1 (fun _ => 1000) (fun _ => (200, 100)) (fun _ => ⟨0, 0, 0⟩) = some s) ∧
      State.init (-1) (fun _ => 1000) (fun _ => (200, 100)) (fun _ => ⟨0, 0, 0⟩) = none :=
  ⟨(c10_init_total_iff_positive 1 (fun _ => 1000) (fun _ => (200, 100)) (fun _ => ⟨0, 0, 0⟩)).1
      (by norm_num),
    (c10_init_total_iff_positive (-1) (fun _ => 1000) (fun _ => (200, 100))
      (fun _ => ⟨0, 0, 0⟩)).2 (by norm_num)⟩

/-- Entries outside the strict upper triangle survive a factor refresh. -/
theorem gf_refresh_entry_not_lt (s : State) (i j : ℕ) (hij : ¬ i < j) :
    ((s.update_gravitation_factor.gravitation_factor).getD i []).getD j 0 =
      (s.gravitation_factor.getD i []).getD j 0 := by
  rw [update_gravitation_factor_gravitation_factor]
  rcases lt_or_le i s.gravitation_factor.length with hi | hi
  · rw [getD_mapIdx _ _ _ _ hi]
    rcases lt_or_le j (s.gravitation_factor.getD i []).length with hj | hj
    · rw [getD_mapIdx _ _ _ _ hj]
      simp [hij]
    · rw [List.getD_eq_default _ _ (by simp only [List.length_mapIdx]; exact hj),
        List.getD_eq_default _ _ hj]
  · have h1 : (s.gravitation_factor.mapIdx fun i row =>
        row.mapIdx fun j x =>
          if i < s.n ∧ i < j ∧ j < s.n then
            GRAVITATIONAL_COEFFICIENT /
              max (distance_squared_to (s.positions.getD i (0, 0)) (s.positions.getD j (0, 0)))
                s.min_distance_squared
          else x).getD i [] = [] :=
      List.getD_eq_default _ _ (by simp only [List.length_mapIdx]; exact hi)
    rw [h1, List.getD_eq_default _ _ hi]

/-- Every entry of the all-zero factor matrix reads as zero. -/
theorem getD_zero_matrix (m i j : ℕ) :
    ((((List.range m).map fun _ => (List.range m).map fun _ => (0 : ℝ))).getD i []).getD j 0 =
      0 := by
  have hrep : ((List.range m).map fun _ => (List.range m).map fun _ => (0 : ℝ)) =
      List.replicate m (List.replicate m 0) := by
    simp
  rw [hrep]
  rcases lt_or_le i m with hi | hi
  · have houter : (List.replicate m (List.replicate m (0 : ℝ))).getD i [] =
        List.replicate m 0 := by
      rw [List.getD_eq_getElem _ _ (by simpa using hi), List.getElem_replicate]
    rw [houter]
    rcases lt_or_le j m with hj | hj
    · rw [List.getD_eq_getElem _ _ (by simpa using hj), List.getElem_replicate]
    · rw [List.getD_eq_default _ _ (by simpa using hj)]
  · have houter : (List.replicate m (List.replicate m (0 : ℝ))).getD i [] = [] :=
      List.getD_eq_default _ _ (by simpa using hi)
    rw [houter]
    rfl

/-- A factor refresh on a state already satisfying the factor invariant is
the identity. -/
theorem update_gravitation_factor_of_consistent (s : State)
    (hgf : s.GFConsistent) : s.update_gravitation_factor = s := by
  refine State.ext rfl rfl rfl rfl rfl rfl ?_ rfl rfl
  rw [update_gravitation_factor_gravitation_factor]
  apply mapIdx_id_of_fix
  intro i hi
  apply mapIdx_id_of_fix
  intro j hj
  by_cases hcond : i < s.n ∧ i < j ∧ j < s.n
  · rw [if_pos hcond]
    have hrowD : s.gravitation_factor.getD i [] = s.gravitation_factor.get ⟨i, hi⟩ :=
      List.getD_eq_getElem _ _ hi
    have hval := hgf i j hcond.2.1 hcond.2.2
    rw [hrowD] at hval
    rw [List.getD_eq_getElem _ _ hj] at hval
    rw [← hval]
    rfl
  · rw [if_neg hcond]

/-- An acceleration refresh on a state already satisfying the acceleration
invariant is the identity. -/
theorem update_acceleration_of_consistent (s : State)
    (hacc : s.AccConsistent) : s.update_acceleration = s := by
  refine State.ext rfl rfl rfl rfl rfl rfl rfl ?_ rfl
  rw [update_acceleration_accelerations]
  apply mapIdx_id_of_fix
  intro i hi
  by_cases hlt : i < s.n
  · rw [if_pos hlt]
    have hval := hacc i hlt
    rw [List.getD_eq_getElem _ _ hi] at hval
    rw [← hval]
    rfl
  · rw [if_neg hlt]

/-- C2: on a consistent state the code's rotated tick order (velocity,
position, factor refresh, acceleration) yields the same positions and
velocities as the specification's force-velocity-position order, i.e. the
velocities are integrated with the accelerations determined by the
positions current at the start of the tick, and the positions with the
fresh velocities. -/
theorem c2_step_order_equivalence (s : State) (dt : ℝ)
    (hgf : s.GFConsistent) (hacc : s.AccConsistent) :
    (s.spec_order_update dt).positions = (s.update dt).positions ∧
      (s.spec_order_update dt).velocities = (s.update dt).velocities := by
  have h1 : s.update_gravitation_factor = s :=
    update_gravitation_factor_of_consistent s hgf
  have h2 : s.update_acceleration = s :=
    update_acceleration_of_consistent s hacc
  have hspec : s.spec_order_update dt = (s.update_velocities dt).update_positions dt := by
    rw [State.spec_order_update, h1, h2]
  constructor
  · rw [hspec]
    rfl
  · rw [hspec]
    rfl

/-- Witness for C2 at the concrete post-tick two-body state with `dt = 1`. -/
theorem c2_step_order_equivalence_witness :
    (two_body_state.update 1).GFConsistent ∧
      (two_body_state.update 1).AccConsistent ∧
      (((two_body_state.update 1).spec_order_update 1).positions =
          ((two_body_state.update 1).update 1).positions ∧
        ((two_body_state.update 1).spec_order_update 1).velocities =
          ((two_body_state.update 1).update 1).velocities) :=
  ⟨gf_consistent_of_refresh _
      (wf_update_positions _ 1 (wf_update_velocities _ 1 two_body_state_wf)),
    acc_consistent_of_refresh _
      (wf_update_positions _ 1 (wf_update_velocities _ 1 two_body_state_wf)),
    c2_step_order_equivalence (two_body_state.update 1) 1
      (gf_consistent_of_refresh _
        (wf_update_positions _ 1 (wf_update_velocities _ 1 two_body_state_wf)))
      (acc_consistent_of_refresh _
        (wf_update_positions _ 1 (wf_update_velocities _ 1 two_body_state_wf)))⟩

/-- The Euclidean length of a pygame vector is unchanged when the
difference is taken in the opposite order. -/
theorem vlength_sub_symm (a b : Vec) :
    vlength (b.1 - a.1, b.2 - a.2) = vlength (a.1 - b.1, a.2 - b.2) := by
  unfold vlength
  congr 1
  ring

/-- C4: the factor refresh writes only strictly-upper-triangular entries
(everything else keeps its value, and is zero after construction), and the
acceleration loop reads the coefficient of the ordered pairs `(i, j)` and
`(j, i)` from the same `[min][max]` cell. -/
theorem c4_pair_factor_storage_and_symmetry :
    (∀ (s : State) (dt : ℝ) (i j : ℕ), ¬ i < j →
        (((s.update dt).gravitation_factor).getD i []).getD j 0 =
          (s.gravitation_factor.getD i []).getD j 0) ∧
      (∀ (n : ℤ) (md : ℕ → ℤ) (pd : ℕ → ℤ × ℤ) (cd : ℕ → Color) (s0 : State),
        State.init n md pd cd = some s0 →
          ∀ i j, ¬ i < j → ((s0.gravitation_factor).getD i []).getD j 0 = 0) ∧
      ∀ (s : State) (i j : ℕ), s.pair_coeff i j = s.pair_coeff j i := by
  refine ⟨?_, ?_, ?_⟩
  · intro s dt i j hij
    have hrw : (s.update dt).gravitation_factor =
        (((s.update_velocities dt).update_positions
          dt).update_gravitation_factor).gravitation_factor := rfl
    rw [hrw, gf_refresh_entry_not_lt _ i j hij]
    rfl
  · intro n md pd cd s0 h i j hij
    rcases le_or_lt 1 n with hn | hn
    · obtain ⟨mx, _, heq⟩ := init_eq_some n md pd cd hn
      rw [heq] at h
      cases h
      have hrw : ((init_raw n md pd cd
          mx).update_gravitation_factor.update_acceleration).gravitation_factor =
          ((init_raw n md pd cd mx).update_gravitation_factor).gravitation_factor := rfl
      rw [hrw, gf_refresh_entry_not_lt _ i j hij]
      exact getD_zero_matrix n.toNat i j
    · rw [init_eq_none n md pd cd (by omega)] at h
      cases h
  · intro s i j
    rw [State.pair_coeff, State.pair_coeff, min_comm, max_comm]

/-- Witness for C4: at the two-body state after a tick the `(1, 0)` entry is
untouched, a freshly constructed one-body state has zero there, and the
coefficient reads for `(0, 1)` and `(1, 0)` agree. -/
theorem c4_pair_factor_storage_and_symmetry_witness :
    (¬ (1 : ℕ) < 0 ∧
        (((two_body_state.update 1).gravitation_factor).getD 1 []).getD 0 0 =
          (two_body_state.gravitation_factor.getD 1 []).getD 0 0) ∧
      (((init_raw 1 (fun _ => 1000) (fun _ => (200, 100)) (fun _ => ⟨0, 0, 0⟩)
          (size_from_mass (random_mass 1
            1000))).update_gravitation_factor.update_acceleration).gravitation_factor.getD 1
              []).getD 0 0 = 0 ∧
      two_body_state.pair_coeff 0 1 = two_body_state.pair_coeff 1 0 :=
  ⟨⟨by decide,
      c4_pair_factor_storage_and_symmetry.1 two_body_state 1 1 0 (by decide)⟩,
    c4_pair_factor_storage_and_symmetry.2.1 1 (fun _ => 1000) (fun _ => (200, 100))
      (fun _ => ⟨0, 0, 0⟩) _ rfl 1 0 (by decide),
    c4_pair_factor_storage_and_symmetry.2.2 two_body_state 0 1⟩

/-- C5: a pair of distinct bodies whose raw distance is at most one unit is
skipped before normalization and contributes exactly zero to either body's
acceleration. -/
theorem c5_close_pair_skipped (s : State) (i j : ℕ) (hij : i ≠ j)
    (h : vlength ((s.positions.getD j (0, 0)).1 - (s.positions.getD i (0, 0)).1,
        (s.positions.getD j (0, 0)).2 - (s.positions.getD i (0, 0)).2) ≤ 1) :
    s.accel_contrib i j = (0, 0) ∧ s.accel_contrib j i = (0, 0) := by
  have h' : vlength ((s.positions.getD i (0, 0)).1 - (s.positions.getD j (0, 0)).1,
      (s.positions.getD i (0, 0)).2 - (s.positions.getD j (0, 0)).2) ≤ 1 := by
    rw [vlength_sub_symm]
    exact h
  constructor
  · simp only [State.accel_contrib, if_neg hij, if_pos h]
  · simp only [State.accel_contrib, if_neg (Ne.symm hij), if_pos h']

/-- Witness for C5 at the coincident two-body state. -/
theorem c5_close_pair_skipped_witness :
    ((0 : ℕ) ≠ 1 ∧
        vlength ((coincident_state.positions.getD 1 (0, 0)).1 -
            (coincident_state.positions.getD 0 (0, 0)).1,
          (coincident_state.positions.getD 1 (0, 0)).2 -
            (coincident_state.positions.getD 0 (0, 0)).2) ≤ 1) ∧
      coincident_state.accel_contrib 0 1 = (0, 0) ∧
        coincident_state.accel_contrib 1 0 = (0, 0) :=
  ⟨⟨by decide,
      by norm_num [coincident_state, vlength, List.getD_cons_succ, List.getD_cons_zero,
        Real.sqrt_zero]⟩,
    c5_close_pair_skipped coincident_state 0 1 (by decide)
      (by norm_num [coincident_state, vlength, List.getD_cons_succ, List.getD_cons_zero,
        Real.sqrt_zero])⟩

/-- With zero accelerations a velocity integration step is the identity on
the two-body test state. -/
theorem two_body_update_velocities_one :
    two_body_state.update_velocities 1 = two_body_state := by
  refine State.ext rfl rfl rfl rfl ?_ rfl rfl rfl rfl
  rw [update_velocities_velocities]
  apply mapIdx_id_of_fix
  intro i h'
  have h2 : i < 2 := h'
  interval_cases i <;> norm_num [two_body_state, State.n]

/-- With zero velocities a position integration step is the identity on the
two-body test state. -/
theorem two_body_update_positions_one :
    two_body_state.update_positions 1 = two_body_state := by
  refine State.ext rfl rfl rfl ?_ rfl rfl rfl rfl rfl
  rw [update_positions_positions]
  apply mapIdx_id_of_fix
  intro i h'
  have h2 : i < 2 := h'
  interval_cases i <;> norm_num [two_body_state, State.n]

/-- A tick on the two-body test state reduces to the two refresh passes. -/
theorem two_body_update_eq :
    two_body_state.update 1 =
      two_body_state.update_gravitation_factor.update_acceleration := by
  show (((two_body_state.update_velocities 1).update_positions
    1).update_gravitation_factor).update_acceleration = _
  rw [two_body_update_velocities_one, two_body_update_positions_one]

/-- The refreshed pair coefficient of the two-body test state. -/
theorem two_body_pair_coeff :
    (two_body_state.update_gravitation_factor).pair_coeff 0 1 = 900 / 10000 := by
  rw [State.pair_coeff, update_gravitation_factor_gravitation_factor]
  rw [getD_mapIdx _ _ _ _
    (show min 0 1 < two_body_state.gravitation_factor.length by norm_num [two_body_state])]
  norm_num [two_body_state, State.n, distance_squared_to, GRAVITATIONAL_COEFFICIENT,
    List.getD_cons_zero, List.getD_cons_succ]

/-- The refreshed acceleration of body 0 of the two-body test state. -/
theorem two_body_accel_of_zero :
    (two_body_state.update_gravitation_factor).accel_of 0 = (90, 0) := by
  have hsq100 : Real.sqrt (10000 : ℝ) = 100 := by
    rw [show (10000 : ℝ) = 100 ^ 2 by norm_num,
      Real.sqrt_sq (by norm_num : (0 : ℝ) ≤ 100)]
  have hc := two_body_pair_coeff
  rw [State.accel_of]
  show ∑ j ∈ Finset.range 2, (two_body_state.update_gravitation_factor).accel_contrib 0 j = _
  rw [Finset.sum_range_succ, Finset.sum_range_one]
  have h00 : (two_body_state.update_gravitation_factor).accel_contrib 0 0 = (0, 0) := by
    simp [State.accel_contrib]
  have h01 : (two_body_state.update_gravitation_factor).accel_contrib 0 1 = (90, 0) := by
    rw [State.accel_contrib, if_neg (by decide : ¬ (0 : ℕ) = 1)]
    show (if vlength ((100 : ℝ) - 0, (0 : ℝ) - 0) ≤ 1 then ((0 : ℝ), (0 : ℝ))
      else scale_to_length (vnormalize ((100 : ℝ) - 0, (0 : ℝ) - 0))
        ((two_body_state.update_gravitation_factor).masses.getD 1 0 *
          (two_body_state.update_gravitation_factor).pair_coeff 0 1)) = (90, 0)
    rw [hc]
    have hv : vlength ((100 : ℝ) - 0, (0 : ℝ) - 0) = 100 := by
      rw [vlength]
      norm_num [hsq100]
    rw [if_neg (by rw [hv]; norm_num)]
    have hm : (two_body_state.update_gravitation_factor).masses.getD 1 0 = 1000 := rfl
    rw [hm]
    have hnorm : vnormalize ((100 : ℝ) - 0, (0 : ℝ) - 0) = (1, 0) := by
      rw [vnormalize, hv]
      norm_num
    rw [hnorm, scale_to_length]
    have hv1 : vlength ((1 : ℝ), (0 : ℝ)) = 1 := by
      rw [vlength]
      norm_num [Real.sqrt_one]
    rw [hv1]
    norm_num
  rw [h00, h01]
  norm_num

/-- The refreshed acceleration of body 1 of the two-body test state. -/
theorem two_body_accel_of_one :
    (two_body_state.update_gravitation_factor).accel_of 1 = (-90, 0) := by
  have hsq100 : Real.sqrt (10000 : ℝ) = 100 := by
    rw [show (10000 : ℝ) = 100 ^ 2 by norm_num,
      Real.sqrt_sq (by norm_num : (0 : ℝ) ≤ 100)]
  have hc := two_body_pair_coeff
  rw [State.accel_of]
  show ∑ j ∈ Finset.range 2, (two_body_state.update_gravitation_factor).accel_contrib 1 j = _
  rw [Finset.sum_range_succ, Finset.sum_range_one]
  have h11 : (two_body_state.update_gravitation_factor).accel_contrib 1 1 = (0, 0) := by
    simp [State.accel_contrib]
  have h10 : (two_body_state.update_gravitation_factor).accel_contrib 1 0 = (-90, 0) := by
    rw [State.accel_contrib, if_neg (by decide : ¬ (1 : ℕ) = 0)]
    show (if vlength ((0 : ℝ) - 100, (0 : ℝ) - 0) ≤ 1 then ((0 : ℝ), (0 : ℝ))
      else scale_to_length (vnormalize ((0 : ℝ) - 100, (0 : ℝ) - 0))
        ((two_body_state.update_gravitation_factor).masses.getD 0 0 *
          (two_body_state.update_gravitation_factor).pair_coeff 1 0)) = (-90, 0)
    have hcc : (two_body_state.update_gravitation_factor).pair_coeff 1 0 =
        (two_body_state.update_gravitation_factor).pair_coeff 0 1 := by
      rw [State.pair_coeff, State.pair_coeff, min_comm, max_comm]
    rw [hcc, hc]
    have hv : vlength ((0 : ℝ) - 100, (0 : ℝ) - 0) = 100 := by
      rw [vlength]
      norm_num [hsq100]
    rw [if_neg (by rw [hv]; norm_num)]
    have hm : (two_body_state.update_gravitation_factor).masses.getD 0 0 = 1000 := rfl
    rw [hm]
    have hnorm : vnormalize ((0 : ℝ) - 100, (0 : ℝ) - 0) = (-1, 0) := by
      rw [vnormalize, hv]
      norm_num
    rw [hnorm, scale_to_length]
    have hv1 : vlength ((-1 : ℝ), (0 : ℝ)) = 1 := by
      rw [vlength]
      norm_num [Real.sqrt_one]
    rw [hv1]
    norm_num
  rw [h11, h10]
  norm_num

/-- C7: in the end-to-end two-body scenario (masses 1000 and 1000 at
`(0, 0)` and `(100, 0)`, `G = 900`, `dt = 1`) body 0 accelerates in the
positive x-direction, body 1 gets the exact opposite acceleration, and both
magnitudes equal `G * 1000 / max(100^2, minDistanceSquared)`. -/
theorem c7_two_body_end_to_end :
    (two_body_state.update 1).accelerations.getD 0 (0, 0) = (90, 0) ∧
      (two_body_state.update 1).accelerations.getD 1 (0, 0) = (-90, 0) ∧
      vlength ((two_body_state.update 1).accelerations.getD 0 (0, 0)) =
        GRAVITATIONAL_COEFFICIENT * 1000 /
          max ((100 : ℝ) ^ 2) two_body_state.min_distance_squared ∧
      vlength ((two_body_state.update 1).accelerations.getD 1 (0, 0)) =
        GRAVITATIONAL_COEFFICIENT * 1000 /
          max ((100 : ℝ) ^ 2) two_body_state.min_distance_squared := by
  have hacc := acc_consistent_of_refresh two_body_state two_body_state_wf
  have hsq8100 : Real.sqrt (8100 : ℝ) = 90 := by
    rw [show (8100 : ℝ) = 90 ^ 2 by norm_num,
      Real.sqrt_sq (by norm_num : (0 : ℝ) ≤ 90)]
  have h0 : (two_body_state.update 1).accelerations.getD 0 (0, 0) = (90, 0) := by
    rw [two_body_update_eq, hacc 0 (by decide), accel_of_update_acceleration]
    exact two_body_accel_of_zero
  have h1 : (two_body_state.update 1).accelerations.getD 1 (0, 0) = (-90, 0) := by
    rw [two_body_update_eq, hacc 1 (by decide), accel_of_update_acceleration]
    exact two_body_accel_of_one
  have hmds : two_body_state.min_distance_squared = (400 : ℝ) := rfl
  refine ⟨h0, h1, ?_, ?_⟩
  · rw [h0, hmds]
    have hl : vlength ((90 : ℝ), (0 : ℝ)) = 90 := by
      rw [vlength]
      norm_num [hsq8100]
    rw [hl]
    rw [max_eq_left (show (400 : ℝ) ≤ 100 ^ 2 by norm_num)]
    norm_num [GRAVITATIONAL_COEFFICIENT]
  · rw [h1, hmds]
    have hl : vlength ((-90 : ℝ), (0 : ℝ)) = 90 := by
      rw [vlength]
      norm_num [hsq8100]
    rw [hl]
    rw [max_eq_left (show (400 : ℝ) ≤ 100 ^ 2 by norm_num)]
    norm_num [GRAVITATIONAL_COEFFICIENT]

/-- C9: per iteration of the interaction loop, a quit event or the `Q` key
clears `running`; the `R` key replaces the simulation state by a freshly
generated one with the same star count and clears `paused`; the `P` key
toggles `paused`; the `A`/`Z` keys multiply/divide the scale factor by
`0.9`; and when `paused` holds after polling, the iteration applies all
event transitions but skips both the engine update and the draw. -/
theorem c9_interaction_loop_transitions :
    (∀ (n : ℤ) (md : ℕ → ℤ) (pd : ℕ → ℤ × ℤ) (cd : ℕ → Color) (l : LoopState),
        (handle_event n md pd cd l .quit).running = false ∧
          (handle_event n md pd cd l (.keydown .k_q)).running = false) ∧
      (∀ (n : ℤ) (md : ℕ → ℤ) (pd : ℕ → ℤ × ℤ) (cd : ℕ → Color) (l : LoopState)
          (fresh : State), State.init n md pd cd = some fresh →
          (handle_event n md pd cd l (.keydown .k_r)).sim = fresh ∧
            (handle_event n md pd cd l (.keydown .k_r)).paused = false) ∧
      (∀ (n : ℤ) (md : ℕ → ℤ) (pd : ℕ → ℤ × ℤ) (cd : ℕ → Color) (l : LoopState),
        (handle_event n md pd cd l (.keydown .k_p)).paused = !l.paused) ∧
      (∀ (n : ℤ) (md : ℕ → ℤ) (pd : ℕ → ℤ × ℤ) (cd : ℕ → Color) (l : LoopState),
        (handle_event n md pd cd l (.keydown .k_a)).scale_factor = l.scale_factor * 0.9 ∧
          (handle_event n md pd cd l (.keydown .k_z)).scale_factor = l.scale_factor / 0.9) ∧
      ∀ (n : ℤ) (md : ℕ → ℤ) (pd : ℕ → ℤ × ℤ) (cd : ℕ → Color) (l : LoopState)
        (events : List Event) (dt : ℝ),
        (poll_events n md pd cd l events).paused = true →
          loop_iteration n md pd cd l events dt =
            (poll_events n md pd cd l events, false) := by
  refine ⟨?_, ?_, ?_, ?_, ?_⟩
  · intro n md pd cd l
    exact ⟨rfl, rfl⟩
  · intro n md pd cd l fresh h
    constructor
    · show (State.init n md pd cd).getD l.sim = fresh
      rw [h]
      rfl
    · rfl
  · intro n md pd cd l
    rfl
  · intro n md pd cd l
    exact ⟨rfl, rfl⟩
  · intro n md pd cd l events dt hp
    rw [loop_iteration]
    rw [if_pos hp]

/-- Witness for C9 at a concrete loop state, with a `P` press making the
paused branch fire. -/
theorem c9_interaction_loop_transitions_witness :
    ((handle_event 1 witness_mass_draw witness_pos_draw witness_color_draw
          witness_loop_state .quit).running = false ∧
        (handle_event 1 witness_mass_draw witness_pos_draw witness_color_draw
          witness_loop_state (.keydown .k_q)).running = false) ∧
      ((handle_event 1 witness_mass_draw witness_pos_draw witness_color_draw
          witness_loop_state (.keydown .k_r)).sim = witness_fresh_state ∧
        (handle_event 1 witness_mass_draw witness_pos_draw witness_color_draw
          witness_loop_state (.keydown .k_r)).paused = false) ∧
      (handle_event 1 witness_mass_draw witness_pos_draw witness_color_draw
        witness_loop_state (.keydown .k_p)).paused = !witness_loop_state.paused ∧
      ((handle_event 1 witness_mass_draw witness_pos_draw witness_color_draw
          witness_loop_state (.keydown .k_a)).scale_factor =
            witness_loop_state.scale_factor * 0.9 ∧
        (handle_event 1 witness_mass_draw witness_pos_draw witness_color_draw
          witness_loop_state (.keydown .k_z)).scale_factor =
            witness_loop_state.scale_factor / 0.9) ∧
      loop_iteration 1 witness_mass_draw witness_pos_draw witness_color_draw
          witness_loop_state [Event.keydown Key.k_p] 1 =
        (poll_events 1 witness_mass_draw witness_pos_draw witness_color_draw
          witness_loop_state [Event.keydown Key.k_p], false) :=
  ⟨c9_interaction_loop_transitions.1 1 witness_mass_draw witness_pos_draw
      witness_color_draw witness_loop_state,
    c9_interaction_loop_transitions.2.1 1 witness_mass_draw witness_pos_draw
      witness_color_draw witness_loop_state witness_fresh_state rfl,
    c9_interaction_loop_transitions.2.2.1 1 witness_mass_draw witness_pos_draw
      witness_color_draw witness_loop_state,
    c9_interaction_loop_transitions.2.2.2.1 1 witness_mass_draw witness_pos_draw
      witness_color_draw witness_loop_state,
    c9_interaction_loop_transitions.2.2.2.2 1 witness_mass_draw witness_pos_draw
      witness_color_draw witness_loop_state [Event.keydown Key.k_p] 1 rfl⟩

/-- The horizontal inset margin evaluates to 128 pixels. -/
theorem x_margin_eq : x_margin = 128 := by
  rw [x_margin, show ((SCREEN_SIZE.1 : ℚ) / 10) = ((128 : ℤ) : ℚ) by norm_num [SCREEN_SIZE],
    Int.ceil_intCast]

/-- The vertical inset margin evaluates to 72 pixels. -/
theorem y_margin_eq : y_margin = 72 := by
  rw [y_margin, show ((SCREEN_SIZE.2 : ℚ) / 10) = ((72 : ℤ) : ℚ) by norm_num [SCREEN_SIZE],
    Int.ceil_intCast]

/-- C6: for every star count `n >= 1` and every outcome of the random draws
within the `randint` bounds, construction yields exactly `n` entries in
every per-body sequence, the masses sorted descending with each equal to
`draw * 4 / n` for a draw in `[1000, 4000]`, the sizes derived by
`size_from_mass`, every position inside the 10%-margin inset rectangle, and
all initial velocities zero. -/
theorem c6_generator_shape (n : ℤ) (md : ℕ → ℤ) (pd : ℕ → ℤ × ℤ) (cd : ℕ → Color)
    (hn : 1 ≤ n) (hmd : ∀ k, 1000 ≤ md k ∧ md k ≤ 4000)
    (hpd : ∀ k, x_margin ≤ (pd k).1 ∧ (pd k).1 ≤ SCREEN_SIZE.1 - x_margin ∧
      y_margin ≤ (pd k).2 ∧ (pd k).2 ≤ SCREEN_SIZE.2 - y_margin) :
    ∃ s, State.init n md pd cd = some s ∧
      s.masses.length = n.toNat ∧ s.sizes.length = n.toNat ∧
      s.positions.length = n.toNat ∧ s.velocities.length = n.toNat ∧
      s.colors.length = n.toNat ∧ s.accelerations.length = n.toNat ∧
      List.Sorted (· ≥ ·) s.masses ∧
      (∀ m ∈ s.masses, ∃ d : ℤ, 1000 ≤ d ∧ d ≤ 4000 ∧ m = (d : ℝ) * 4 / (n : ℝ)) ∧
      s.sizes = s.masses.map size_from_mass ∧
      (∀ p ∈ s.positions, (x_margin : ℝ) ≤ p.1 ∧
        p.1 ≤ ((SCREEN_SIZE.1 - x_margin : ℤ) : ℝ) ∧ (y_margin : ℝ) ≤ p.2 ∧
        p.2 ≤ ((SCREEN_SIZE.2 - y_margin : ℤ) : ℝ)) ∧
      ∀ v ∈ s.velocities, v = ((0 : ℝ), (0 : ℝ)) := by
  obtain ⟨mx, _, heq⟩ := init_eq_some n md pd cd hn
  refine ⟨_, heq, ?_, ?_, ?_, ?_, ?_, ?_, ?_, ?_, ?_, ?_, ?_⟩
  · show (init_masses n md).length = n.toNat
    exact length_init_masses n md
  · show ((init_masses n md).map size_from_mass).length = n.toNat
    simp [length_init_masses]
  · show ((List.range n.toNat).map fun k => random_position (pd k)).length = n.toNat
    simp
  · show ((List.range n.toNat).map fun _ => ((0 : ℝ), (0 : ℝ))).length = n.toNat
    simp
  · show ((List.range n.toNat).map cd).length = n.toNat
    simp
  · rw [update_acceleration_accelerations]
    simp only [List.length_mapIdx, update_gravitation_factor_accelerations]
    show ((List.range n.toNat).map fun _ => ((0 : ℝ), (0 : ℝ))).length = n.toNat
    simp
  · show List.Sorted (· ≥ ·) (init_masses n md)
    exact List.sorted_insertionSort _ _
  · intro m hm
    have hm' : m ∈ init_masses n md := hm
    rw [init_masses, List.mem_insertionSort] at hm'
    obtain ⟨k, _, rfl⟩ := List.mem_map.mp hm'
    exact ⟨md k, (hmd k).1, (hmd k).2, rfl⟩
  · rfl
  · intro p hp
    have hp' : p ∈ (List.range n.toNat).map fun k => random_position (pd k) := hp
    obtain ⟨k, _, rfl⟩ := List.mem_map.mp hp'
    refine ⟨?_, ?_, ?_, ?_⟩
    · exact_mod_cast Int.cast_le.mpr (hpd k).1
    · exact_mod_cast Int.cast_le.mpr (hpd k).2.1
    · exact_mod_cast Int.cast_le.mpr (hpd k).2.2.1
    · exact_mod_cast Int.cast_le.mpr (hpd k).2.2.2
  · intro v hv
    have hv' : v ∈ (List.range n.toNat).map fun _ => ((0 : ℝ), (0 : ℝ)) := hv
    obtain ⟨k, _, rfl⟩ := List.mem_map.mp hv'
    rfl

/-- Witness for C6 with one star and fixed draws. -/
theorem c6_generator_shape_witness :
    ∃ s, State.init 1 witness_mass_draw witness_pos_draw witness_color_draw = some s ∧
      s.masses.length = (1 : ℤ).toNat ∧ s.sizes.length = (1 : ℤ).toNat ∧
      s.positions.length = (1 : ℤ).toNat ∧ s.velocities.length = (1 : ℤ).toNat ∧
      s.colors.length = (1 : ℤ).toNat ∧ s.accelerations.length = (1 : ℤ).toNat ∧
      List.Sorted (· ≥ ·) s.masses ∧
      (∀ m ∈ s.masses, ∃ d : ℤ, 1000 ≤ d ∧ d ≤ 4000 ∧
        m = (d : ℝ) * 4 / ((1 : ℤ) : ℝ)) ∧
      s.sizes = s.masses.map size_from_mass ∧
      (∀ p ∈ s.positions, (x_margin : ℝ) ≤ p.1 ∧
        p.1 ≤ ((SCREEN_SIZE.1 - x_margin : ℤ) : ℝ) ∧ (y_margin : ℝ) ≤ p.2 ∧
        p.2 ≤ ((SCREEN_SIZE.2 - y_margin : ℤ) : ℝ)) ∧
      ∀ v ∈ s.velocities, v = ((0 : ℝ), (0 : ℝ)) :=
  c6_generator_shape 1 witness_mass_draw witness_pos_draw witness_color_draw
    (by norm_num)
    (fun k => by norm_num [witness_mass_draw])
    (fun k => by norm_num [witness_pos_draw, x_margin_eq, y_margin_eq, SCREEN_SIZE])

end ThreeBody
